import Mathlib

/-!
Verification of the GateFlow permit core against its specification.

The definitions below are a shallow embedding of the Python sources:
  * src/backend/database/models.py        (enums, Permit columns)
  * src/backend/modules/permits/service.py (PermitsService)
  * src/backend/modules/permits/router.py  (PermitCreateRequest bounds, error mapping)
  * src/backend/core/config.py             (configured duration bounds)
Datetimes are embedded as integers (seconds); `datetime.now()` becomes an
explicit `now` parameter.  SQLAlchemy sessions become an explicit `DB` value;
a SELECT is a list lookup, a commit returns the updated `DB`.  Python
truthiness of `Optional[str]` (None and "" are falsy) and of
`Optional[datetime]` (only None is falsy) is embedded explicitly.
-/

namespace GateFlow

/-- Embedding of Python `str.upper()` as used by the service on status and
type strings (character-wise ASCII uppercasing; every string it is applied
to in the source is ASCII). -/
def pyUpper (s : String) : String :=
  String.mk (s.data.map Char.toUpper)

/-- Truthiness of a Python `Optional[str]`: `None` and `""` are falsy. -/
def pyTruthyStr : Option String → Bool
  | none => false
  | some s => !s.isEmpty

/-- Truthiness of a Python `Optional[datetime]`: only `None` is falsy
(a datetime object is always truthy). -/
def pyTruthyDT : Option Int → Bool
  | none => false
  | some _ => true

/-- Equality of `Except` values is decidable when both sides are; used to
evaluate the embedded fallible operations on concrete inputs. -/
instance {ε α : Type} [DecidableEq ε] [DecidableEq α] :
    DecidableEq (Except ε α) := fun x y =>
  match x, y with
  | .error a, .error b =>
    if h : a = b then .isTrue (by rw [h])
    else .isFalse (fun hh => h (Except.error.inj hh))
  | .error _, .ok _ => .isFalse (fun hh => Except.noConfusion hh)
  | .ok _, .error _ => .isFalse (fun hh => Except.noConfusion hh)
  | .ok a, .ok b =>
    if h : a = b then .isTrue (by rw [h])
    else .isFalse (fun hh => h (Except.ok.inj hh))

/-- `PermitStatus` from src/backend/database/models.py (lines 39-44).
The enum string values are lowercase. -/
inductive PermitStatus
  | ACTIVE
  | EXITED
  | EXPIRED
  | FLAGGED
deriving DecidableEq, Repr

/-- The string value of each `PermitStatus` member (models.py lines 41-44). -/
def PermitStatus.value : PermitStatus → String
  | .ACTIVE => "active"
  | .EXITED => "exited"
  | .EXPIRED => "expired"
  | .FLAGGED => "flagged"

/-- Python `PermitStatus(s)`: lookup of an enum member by value.
Succeeds only on the exact lowercase value strings. -/
def PermitStatus.ofValue (s : String) : Option PermitStatus :=
  if s = "active" then some .ACTIVE
  else if s = "exited" then some .EXITED
  else if s = "expired" then some .EXPIRED
  else if s = "flagged" then some .FLAGGED
  else none

/-- Modelled from the spec: `PermitType` is imported by
src/backend/modules/permits/service.py from `database.models` but is not
defined anywhere under src/.  Its members are taken from the service and
router docstrings ("Type of permit (TRANSIT, ENTRY, EXIT, TEMPORARY)");
the stored values are the upper-case names so that the documented inputs
parse after the `.upper()` call in the service. -/
inductive PermitType
  | TRANSIT
  | ENTRY
  | EXIT
  | TEMPORARY
deriving DecidableEq, Repr

/-- Modelled from the spec (see `PermitType`): lookup by value. -/
def PermitType.ofValue (s : String) : Option PermitType :=
  if s = "TRANSIT" then some .TRANSIT
  else if s = "ENTRY" then some .ENTRY
  else if s = "EXIT" then some .EXIT
  else if s = "TEMPORARY" then some .TEMPORARY
  else none

/-- The permit record as constructed and read by
src/backend/modules/permits/service.py, together with the nullable
`exit_time` column of `Permit` in src/backend/database/models.py
(line 378), which the service never writes. -/
structure Permit where
  id : Nat
  permit_number : String
  permit_type : PermitType
  traveler_id : String
  issued_by : String
  gate_id : Option String
  city_id : Option String
  valid_from : Option Int
  valid_until : Option Int
  status : PermitStatus
  exit_time : Option Int
  notes : Option String
  created_at : Int
  updated_at : Int
  updated_by : Option String
  status_change_reason : Option String
  renewed : Bool
  renewal_count : Option Nat
deriving DecidableEq, Repr

/-- The data store visible to the permits service: the reference tables it
issues existence SELECTs against (travelers, users, gates, cities, and the
weapons table, which it never consults) and the permits table. -/
structure DB where
  travelers : List String
  users : List String
  gates : List String
  cities : List String
  weapons : List String
  permits : List Permit
deriving DecidableEq, Repr

/-- The only error the permits service raises: Python `ValueError(msg)`. -/
inductive ServiceError
  | valueError (msg : String)
deriving DecidableEq, Repr

/-- `PermitsService.get_permit_by_number` (service.py lines 142-164):
SELECT a permit by its `permit_number`. -/
def get_permit_by_number (db : DB) (permit_number : String) : Option Permit :=
  db.permits.find? (fun p => p.permit_number == permit_number)

/-- `PermitsService.get_permit_by_id` lookup used by
`update_permit_status` and `renew_permit` (SELECT by `id`). -/
def find_permit_by_id (db : DB) (permit_id : Nat) : Option Permit :=
  db.permits.find? (fun p => p.id == permit_id)

/-- `PermitsService.create_permit` (service.py lines 21-116).
`now` stands for `datetime.now()`, `uuid_suffix` for the random uuid4
fragment of the permit number; `weapon_id` lands in the `**kwargs`
parameter of the Python signature and is silently discarded, exactly as in
the source.  On any failed check the function raises before `db.add`, so
the error branches carry no updated store. -/
def create_permit (db : DB) (permit_type : String) (traveler_id : String)
    (issued_by_user_id : String) (gate_id : Option String)
    (city_id : Option String) (valid_days : Int) (notes : Option String)
    (weapon_id : Option String) (now : Int) (uuid_suffix : String) :
    Except ServiceError (DB × Permit) :=
  match PermitType.ofValue (pyUpper permit_type) with
  | none => .error (.valueError ("Invalid permit type: " ++ permit_type))
  | some permit_type_enum =>
    if !(db.travelers.contains traveler_id) then
      .error (.valueError ("Traveler with ID " ++ traveler_id ++ " not found"))
    else if !(db.users.contains issued_by_user_id) then
      .error (.valueError ("User with ID " ++ issued_by_user_id ++ " not found"))
    else if pyTruthyStr gate_id && !(db.gates.contains (gate_id.getD "")) then
      .error (.valueError ("Gate with ID " ++ gate_id.getD "" ++ " not found"))
    else if pyTruthyStr city_id && !(db.cities.contains (city_id.getD "")) then
      .error (.valueError ("City with ID " ++ city_id.getD "" ++ " not found"))
    else
      let _ := weapon_id
      let permit_number := "PRMT-" ++ toString now ++ "-" ++ uuid_suffix
      let valid_from := now
      let valid_until := valid_from + valid_days * 86400
      let permit : Permit := {
        id := db.permits.length + 1
        permit_number := permit_number
        permit_type := permit_type_enum
        traveler_id := traveler_id
        issued_by := issued_by_user_id
        gate_id := gate_id
        city_id := city_id
        valid_from := some valid_from
        valid_until := some valid_until
        status := PermitStatus.ACTIVE
        exit_time := none
        notes := notes
        created_at := now
        updated_at := now
        updated_by := none
        status_change_reason := none
        renewed := false
        renewal_count := none }
      .ok ({ db with permits := db.permits ++ [permit] }, permit)

/-- The dictionary returned by `PermitsService.validate_permit`. -/
structure ValidationResult where
  valid : Bool
  message : String
  permit : Option Permit
deriving DecidableEq, Repr

/-- `PermitsService.validate_permit` (service.py lines 242-304).
The branch order and the truthiness guards mirror the source:
`permit.valid_until and permit.valid_until < now`,
`permit.valid_from and permit.valid_from > now`,
`gate_id and permit.gate_id and permit.gate_id != gate_id`. -/
def validate_permit (db : DB) (permit_number : String)
    (gate_id : Option String) (now : Int) : ValidationResult :=
  match get_permit_by_number db permit_number with
  | none => { valid := false, message := "Permit not found", permit := none }
  | some permit =>
    if permit.status ≠ PermitStatus.ACTIVE then
      { valid := false, message := "Permit is " ++ permit.status.value
        permit := some permit }
    else if pyTruthyDT permit.valid_until && decide (permit.valid_until.getD 0 < now) then
      { valid := false, message := "Permit has expired", permit := some permit }
    else if pyTruthyDT permit.valid_from && decide (permit.valid_from.getD 0 > now) then
      { valid := false, message := "Permit is not yet valid", permit := some permit }
    else if pyTruthyStr gate_id && pyTruthyStr permit.gate_id
        && permit.gate_id != gate_id then
      { valid := false, message := "Permit is not valid for this gate"
        permit := some permit }
    else
      { valid := true, message := "Permit is valid", permit := some permit }

/-- `validate_permit` together with the session it leaves behind: the
source issues only SELECT statements (no field assignment, no commit), so
the store comes back unchanged. -/
def validate_permit_db (db : DB) (permit_number : String)
    (gate_id : Option String) (now : Int) : ValidationResult × DB :=
  (validate_permit db permit_number gate_id now, db)

/-- `PermitsService.update_permit_status` (service.py lines 306-351):
parse the status with `PermitStatus(new_status.upper())`, raising
`ValueError` on failure; then SELECT the permit by id (returning `None`
when absent), assign the new status and bookkeeping fields, and commit. -/
def update_permit_status (db : DB) (permit_id : Nat) (new_status : String)
    (updated_by : String) (reason : Option String) (now : Int) :
    Except ServiceError (DB × Option Permit) :=
  match PermitStatus.ofValue (pyUpper new_status) with
  | none => .error (.valueError ("Invalid status: " ++ new_status))
  | some status_enum =>
    match find_permit_by_id db permit_id with
    | none => .ok (db, none)
    | some permit =>
      let permit2 := { permit with
        status := status_enum
        updated_at := now
        updated_by := some updated_by
        status_change_reason := reason }
      let permits2 := db.permits.map (fun p => if p.id == permit_id then permit2 else p)
      .ok ({ db with permits := permits2 }, some permit2)

/-- `PermitsService.revoke_permit` (service.py lines 353-374): delegates to
`update_permit_status` with the literal status string "REVOKED". -/
def revoke_permit (db : DB) (permit_id : Nat) (revoked_by : String)
    (reason : String) (now : Int) :
    Except ServiceError (DB × Option Permit) :=
  update_permit_status db permit_id "REVOKED" revoked_by (some reason) now

/-- `PermitsService.suspend_permit` (service.py lines 376-397): delegates
to `update_permit_status` with the literal status string "SUSPENDED". -/
def suspend_permit (db : DB) (permit_id : Nat) (suspended_by : String)
    (reason : String) (now : Int) :
    Except ServiceError (DB × Option Permit) :=
  update_permit_status db permit_id "SUSPENDED" suspended_by (some reason) now

/-- `PermitsService.renew_permit` (service.py lines 399-442): SELECT by id
(`None` when absent); `valid_from` becomes `now` for an EXPIRED permit and
otherwise `permit.valid_until or now` (Python `or`: a datetime is always
truthy, `None` falls back to `now`); `valid_until` becomes
`valid_from + additional_days` days; status is set to ACTIVE
unconditionally; `renewal_count` becomes `(renewal_count or 0) + 1`. -/
def renew_permit (db : DB) (permit_id : Nat) (renewed_by : String)
    (additional_days : Int) (now : Int) : DB × Option Permit :=
  match find_permit_by_id db permit_id with
  | none => (db, none)
  | some permit =>
    let vf : Int :=
      if permit.status = PermitStatus.EXPIRED then now
      else permit.valid_until.getD now
    let permit2 := { permit with
      valid_from := some vf
      valid_until := some (vf + additional_days * 86400)
      status := PermitStatus.ACTIVE
      updated_at := now
      updated_by := some renewed_by
      renewed := true
      renewal_count := some (permit.renewal_count.getD 0 + 1) }
    let permits2 := db.permits.map (fun p => if p.id == permit_id then permit2 else p)
    ({ db with permits := permits2 }, some permit2)

/-- Errors surfaced by the router: a pydantic request-validation failure
(FastAPI returns 422 before the endpoint body runs) or an explicit
`HTTPException(status_code, detail)`. -/
inductive RouterError
  | requestValidation (msg : String)
  | httpError (code : Nat) (detail : String)
deriving DecidableEq, Repr

/-- The field constraints of `PermitCreateRequest`
(router.py lines 20-27): `valid_days: int = Field(30, ge=1, le=365)` and
`notes: Optional[str] = Field(None, max_length=500)`. -/
def permitCreateRequestOk (valid_days : Int) (notes : Option String) : Bool :=
  decide (1 ≤ valid_days) && decide (valid_days ≤ 365) &&
    (match notes with
     | none => true
     | some s => decide (s.length ≤ 500))

/-- The POST /permits endpoint (router.py lines 105-146): pydantic
validates the request model first; then the service runs, and a
`ValueError` is re-raised as `HTTPException(400, str(e))`.  No retry of
any kind appears in the source: every failure surfaces directly. -/
def create_permit_endpoint (db : DB) (permit_type : String)
    (traveler_id : String) (current_user_id : String)
    (gate_id : Option String) (city_id : Option String) (valid_days : Int)
    (notes : Option String) (now : Int) (uuid_suffix : String) :
    Except RouterError (DB × Permit) :=
  if !(permitCreateRequestOk valid_days notes) then
    .error (.requestValidation "request body failed validation")
  else
    match create_permit db permit_type traveler_id current_user_id gate_id
        city_id valid_days notes none now uuid_suffix with
    | .error (.valueError m) => .error (.httpError 400 m)
    | .ok r => .ok r

/-! ## Concrete data used to evaluate the embedding -/

/-- A concrete permit in the initial state the service itself creates:
ACTIVE, `exit_time` null. Variants are built by record update. -/
def basePermit : Permit := {
  id := 1
  permit_number := "P1"
  permit_type := PermitType.TRANSIT
  traveler_id := "T1"
  issued_by := "U1"
  gate_id := none
  city_id := none
  valid_from := none
  valid_until := none
  status := PermitStatus.ACTIVE
  exit_time := none
  notes := none
  created_at := 0
  updated_at := 0
  updated_by := none
  status_change_reason := none
  renewed := false
  renewal_count := none }

/-- A store holding one traveler, one user, one gate, one city, no weapons,
and the given permits. -/
def mkDB (ps : List Permit) : DB := {
  travelers := ["T1"]
  users := ["U1"]
  gates := ["G1"]
  cities := ["C1"]
  weapons := []
  permits := ps }

/-! ## Helper lemmas about the service operations -/

/-- If the upper-cased status string is not an enum value,
`update_permit_status` raises `ValueError` and touches nothing. -/
theorem update_status_parse_fail (s : String)
    (h : PermitStatus.ofValue (pyUpper s) = none) (db : DB) (i : Nat)
    (u : String) (r : Option String) (now : Int) :
    update_permit_status db i s u r now =
      .error (.valueError ("Invalid status: " ++ s)) := by
  simp [update_permit_status, h]

/-- Shape of a successful `create_permit`: the new permit is ACTIVE with a
null `exit_time`, its validity window is `valid_days` days from `now`, and
it is appended to the store. -/
theorem create_permit_ok_shape (db : DB) (pt tid uid : String)
    (gid cid : Option String) (vd : Int) (notes wid : Option String)
    (now : Int) (sfx : String) (db2 : DB) (p : Permit)
    (h : create_permit db pt tid uid gid cid vd notes wid now sfx = .ok (db2, p)) :
    p.status = PermitStatus.ACTIVE ∧ p.exit_time = none ∧
      p.valid_from = some now ∧ p.valid_until = some (now + vd * 86400) ∧
      db2.permits = db.permits ++ [p] := by
  unfold create_permit at h
  split at h
  · exact absurd h (by simp)
  · split at h
    · exact absurd h (by simp)
    · split at h
      · exact absurd h (by simp)
      · split at h
        · exact absurd h (by simp)
        · split at h
          · exact absurd h (by simp)
          · simp only [Except.ok.injEq, Prod.mk.injEq] at h
            obtain ⟨hdb, hp⟩ := h
            subst hdb hp
            simp

/-- Shape of `renew_permit` on a permit that resolves: status is reset to
ACTIVE unconditionally, `exit_time` is not touched, and the validity
window is recomputed from `now` (EXPIRED permit) or from the previous
`valid_until`. -/
theorem renew_found_shape (db : DB) (i : Nat) (u : String) (d : Int)
    (now : Int) (p : Permit) (h : find_permit_by_id db i = some p) :
    (renew_permit db i u d now).2 = some { p with
      valid_from := some (if p.status = PermitStatus.EXPIRED then now
        else p.valid_until.getD now)
      valid_until := some ((if p.status = PermitStatus.EXPIRED then now
        else p.valid_until.getD now) + d * 86400)
      status := PermitStatus.ACTIVE
      updated_at := now
      updated_by := some u
      renewed := true
      renewal_count := some (p.renewal_count.getD 0 + 1) } := by
  simp [renew_permit, h]

/-! ## C7 -/

/-- C7: expire() in this code base is `update_permit_status(..., "EXPIRED", ...)`.
The service parses `PermitStatus(new_status.upper())`, but every
`PermitStatus` value is lowercase, so the call raises
`ValueError("Invalid status: EXPIRED")` on every store and every permit —
including a permit already EXPIRED, where the claim requires a no-op.
Nothing is ever mutated because the parse precedes the SELECT. -/
theorem C7_expire_always_raises (db : DB) (i : Nat) (u : String)
    (r : Option String) (now : Int) :
    update_permit_status db i "EXPIRED" u r now =
      .error (.valueError "Invalid status: EXPIRED") := by
  rfl

/-! ## C1 -/

/-- A permit carrying the spec shape of a closed crossing: status EXITED
with a recorded `exit_time`.  It satisfies the claimed equivalence. -/
def exitedStalePermit : Permit :=
  { basePermit with status := PermitStatus.EXITED, exit_time := some 5 }

/-- C1 fails on the code: `renew_permit` resets the status of an EXITED
permit to ACTIVE but never clears `exit_time`, so the stored permit ends
with status ACTIVE and a non-null `exit_time`. -/
theorem C1_counterexample :
    (exitedStalePermit.status = PermitStatus.EXITED ↔
      exitedStalePermit.exit_time ≠ none) ∧
    (renew_permit (mkDB [exitedStalePermit]) 1 "admin" 30 100).2.map
      Permit.status = some PermitStatus.ACTIVE ∧
    (renew_permit (mkDB [exitedStalePermit]) 1 "admin" 30 100).2.map
      Permit.exit_time = some (some 5) ∧
    (renew_permit (mkDB [exitedStalePermit]) 1 "admin" 30 100).1.permits.map
      (fun p => (p.status, p.exit_time)) = [(PermitStatus.ACTIVE, some 5)] := by
  decide

/-- C1 (amended): the equivalence `status = EXITED ↔ exit_time ≠ null` is
established by create (status ACTIVE, exit_time null), trivially preserved
by every status update the system issues (all of them raise `ValueError`
before any write, because the service upper-cases the status string while
the enum values are lowercase) and by validation (read-only); renewal
preserves it only for permits whose `exit_time` is null, since it forces
status ACTIVE without clearing `exit_time`. -/
theorem C1_exit_time_invariant :
    (∀ db pt tid uid gid cid vd notes wid now sfx db2 p,
      create_permit db pt tid uid gid cid vd notes wid now sfx = .ok (db2, p) →
      (p.status = PermitStatus.EXITED ↔ p.exit_time ≠ none)) ∧
    (∀ s, s ∈ (["ACTIVE", "EXITED", "EXPIRED", "FLAGGED", "REVOKED",
        "SUSPENDED"] : List String) →
      ∀ db i u r now, update_permit_status db i s u r now =
        .error (.valueError ("Invalid status: " ++ s))) ∧
    (∀ db pn gid now, (validate_permit_db db pn gid now).2 = db) ∧
    (∀ db i u d now p, find_permit_by_id db i = some p → p.exit_time = none →
      ∀ q, (renew_permit db i u d now).2 = some q →
      (q.status = PermitStatus.EXITED ↔ q.exit_time ≠ none)) := by
  refine ⟨?_, ?_, ?_, ?_⟩
  · intro db pt tid uid gid cid vd notes wid now sfx db2 p h
    obtain ⟨h1, h2, -⟩ := create_permit_ok_shape db pt tid uid gid cid vd
      notes wid now sfx db2 p h
    rw [h1, h2]
    simp
  · intro s hs db i u r now
    fin_cases hs <;> exact update_status_parse_fail _ (by decide) db i u r now
  · intro db pn gid now
    rfl
  · intro db i u d now p hf he q hq
    rw [renew_found_shape db i u d now p hf] at hq
    cases hq
    simp [he]

/-- The permit produced by
`create_permit (mkDB []) "TRANSIT" "T1" "U1" none none 30 none none 0 "X"`. -/
def createdPermitW : Permit := {
  id := 1
  permit_number := "PRMT-0-X"
  permit_type := PermitType.TRANSIT
  traveler_id := "T1"
  issued_by := "U1"
  gate_id := none
  city_id := none
  valid_from := some 0
  valid_until := some 2592000
  status := PermitStatus.ACTIVE
  exit_time := none
  notes := none
  created_at := 0
  updated_at := 0
  updated_by := none
  status_change_reason := none
  renewed := false
  renewal_count := none }

/-- The permit produced by renewing `basePermit` (not EXPIRED, null
`valid_until`) with 30 days at time 9. -/
def renewedPermitW : Permit := { basePermit with
  valid_from := some 9
  valid_until := some 2592009
  status := PermitStatus.ACTIVE
  updated_at := 9
  updated_by := some "U1"
  renewed := true
  renewal_count := some 1 }

/-- Witness for C1 at concrete inputs: a fresh creation, a status update,
and a renewal of a permit with null `exit_time`. -/
theorem C1_witness :
    (createdPermitW.status = PermitStatus.EXITED ↔
      createdPermitW.exit_time ≠ none) ∧
    update_permit_status (mkDB [basePermit]) 1 "EXITED" "U1" none 9 =
      .error (.valueError "Invalid status: EXITED") ∧
    (renewedPermitW.status = PermitStatus.EXITED ↔
      renewedPermitW.exit_time ≠ none) :=
  ⟨C1_exit_time_invariant.1 (mkDB []) "TRANSIT" "T1" "U1" none none 30 none
      none 0 "X" (mkDB [createdPermitW]) createdPermitW (by decide),
   C1_exit_time_invariant.2.1 "EXITED" (by decide) (mkDB [basePermit]) 1
      "U1" none 9,
   C1_exit_time_invariant.2.2.2 (mkDB [basePermit]) 1 "U1" 30 9 basePermit
      (by decide) (by decide) renewedPermitW (by decide)⟩

/-! ## C2 -/

/-- A permit in the terminal state EXPIRED. -/
def expiredTermPermit : Permit := { basePermit with status := PermitStatus.EXPIRED }

/-- C2 fails on the code: `renew_permit` overwrites the terminal state
EXPIRED with ACTIVE, both in its return value and in the store. -/
theorem C2_counterexample :
    expiredTermPermit.status = PermitStatus.EXPIRED ∧
    (renew_permit (mkDB [expiredTermPermit]) 1 "admin" 30 50).2.map
      Permit.status = some PermitStatus.ACTIVE ∧
    (renew_permit (mkDB [expiredTermPermit]) 1 "admin" 30 50).1.permits.map
      Permit.status = [PermitStatus.ACTIVE] := by
  decide

/-- C2 (amended): close and flag (`update_permit_status` with "EXITED" /
"FLAGGED") fail on every permit — not only non-ACTIVE ones — with
`ValueError`, not `InvalidTransition`, because the upper-cased status
string never matches the lowercase enum values; the failure precedes any
write, so the status is left unchanged.  There is no state-transition
guard anywhere, and `renew_permit` does overwrite the terminal states
EXITED and EXPIRED, forcing status ACTIVE. -/
theorem C2_close_flag_and_renew :
    (∀ db i u r now, update_permit_status db i "EXITED" u r now =
      .error (.valueError "Invalid status: EXITED")) ∧
    (∀ db i u r now, update_permit_status db i "FLAGGED" u r now =
      .error (.valueError "Invalid status: FLAGGED")) ∧
    (∀ db i u d now p, find_permit_by_id db i = some p →
      p.status = PermitStatus.EXPIRED ∨ p.status = PermitStatus.EXITED →
      (renew_permit db i u d now).2.map Permit.status =
        some PermitStatus.ACTIVE) := by
  refine ⟨?_, ?_, ?_⟩
  · intro db i u r now
    exact update_status_parse_fail _ (by decide) db i u r now
  · intro db i u r now
    exact update_status_parse_fail _ (by decide) db i u r now
  · intro db i u d now p hf _
    rw [renew_found_shape db i u d now p hf]
    rfl

/-- Witness for C2: renewing a concrete EXPIRED permit yields ACTIVE. -/
theorem C2_witness :
    (renew_permit (mkDB [expiredTermPermit]) 1 "admin" 30 50).2.map
      Permit.status = some PermitStatus.ACTIVE :=
  C2_close_flag_and_renew.2.2 (mkDB [expiredTermPermit]) 1 "admin" 30 50
    expiredTermPermit (by decide) (Or.inl (by decide))

/-! ## C3 -/

/-- An ACTIVE permit whose validity window has already ended at time 10. -/
def overdueActivePermit : Permit := { basePermit with valid_until := some 10 }

/-- C3 fails on the code: validating an ACTIVE permit past its expiry at
time 20 denies with "Permit has expired", but the function issues no
write, so the stored permit is still ACTIVE after the call. -/
theorem C3_counterexample :
    overdueActivePermit.status = PermitStatus.ACTIVE ∧
    validate_permit (mkDB [overdueActivePermit]) "P1" none 20 =
      { valid := false, message := "Permit has expired"
        permit := some overdueActivePermit } ∧
    (validate_permit_db (mkDB [overdueActivePermit]) "P1" none 20).2 =
      mkDB [overdueActivePermit] ∧
    (validate_permit_db (mkDB [overdueActivePermit]) "P1" none 20).2.permits.map
      Permit.status = [PermitStatus.ACTIVE] := by
  decide

/-- C3 (amended): a scan of an ACTIVE permit whose validity end lies
before the current time is denied with "Permit has expired", but no
expire() side effect exists — `validate_permit` only reads, and the store
comes back unchanged, the permit still ACTIVE. -/
theorem C3_expired_scan_denied_without_transition (db : DB) (pn : String)
    (gid : Option String) (now : Int) (p : Permit) (t : Int)
    (hp : get_permit_by_number db pn = some p)
    (hs : p.status = PermitStatus.ACTIVE)
    (ht : p.valid_until = some t) (hlt : t < now) :
    validate_permit db pn gid now =
      { valid := false, message := "Permit has expired", permit := some p } ∧
    (validate_permit_db db pn gid now).2 = db := by
  refine ⟨?_, rfl⟩
  simp [validate_permit, hp, hs, ht, pyTruthyDT, hlt]

/-- Witness for C3 at a concrete store and scan time. -/
theorem C3_witness :
    validate_permit (mkDB [overdueActivePermit]) "P1" (some "G1") 20 =
      { valid := false, message := "Permit has expired"
        permit := some overdueActivePermit } ∧
    (validate_permit_db (mkDB [overdueActivePermit]) "P1" (some "G1") 20).2 =
      mkDB [overdueActivePermit] :=
  C3_expired_scan_denied_without_transition (mkDB [overdueActivePermit])
    "P1" (some "G1") 20 overdueActivePermit 10 (by decide) (by decide)
    (by decide) (by decide)

/-! ## C4 -/

/-- C4: gate validation with an unknown permit code denies with
"Permit not found", and validation of a permit whose status is not ACTIVE
denies with a message reporting the current status value. -/
theorem C4_denial_reasons (db : DB) (pn : String) (gid : Option String)
    (now : Int) :
    (get_permit_by_number db pn = none →
      validate_permit db pn gid now =
        { valid := false, message := "Permit not found", permit := none }) ∧
    (∀ p, get_permit_by_number db pn = some p →
      p.status ≠ PermitStatus.ACTIVE →
      validate_permit db pn gid now =
        { valid := false, message := "Permit is " ++ p.status.value
          permit := some p }) := by
  constructor
  · intro h
    simp [validate_permit, h]
  · intro p h hs
    simp [validate_permit, h, hs]

/-- Witness for C4: an empty store denies with "Permit not found"; a
FLAGGED permit denies with "Permit is flagged". -/
theorem C4_witness :
    validate_permit (mkDB []) "P1" none 0 =
      { valid := false, message := "Permit not found", permit := none } ∧
    validate_permit (mkDB [{ basePermit with status := PermitStatus.FLAGGED }])
        "P1" none 0 =
      { valid := false
        message := "Permit is " ++
          ({ basePermit with status := PermitStatus.FLAGGED } : Permit).status.value
        permit := some { basePermit with status := PermitStatus.FLAGGED } } :=
  ⟨(C4_denial_reasons (mkDB []) "P1" none 0).1 (by decide),
   (C4_denial_reasons (mkDB [{ basePermit with status := PermitStatus.FLAGGED }])
      "P1" none 0).2 { basePermit with status := PermitStatus.FLAGGED }
      (by decide) (by decide)⟩

/-! ## C10 -/

/-- Under the hypotheses of the earlier checks (permit found, ACTIVE, not
past its window, already started), `validate_permit` reduces to the gate
check of service.py line 293:
`if gate_id and permit.gate_id and permit.gate_id != gate_id`. -/
theorem validate_reduces_to_gate_check (db : DB) (pn : String)
    (gid : Option String) (now : Int) (p : Permit)
    (hp : get_permit_by_number db pn = some p)
    (hs : p.status = PermitStatus.ACTIVE)
    (hexp : ¬(pyTruthyDT p.valid_until = true ∧ p.valid_until.getD 0 < now))
    (hstart : ¬(pyTruthyDT p.valid_from = true ∧ p.valid_from.getD 0 > now)) :
    validate_permit db pn gid now =
      if pyTruthyStr gid && pyTruthyStr p.gate_id && p.gate_id != gid then
        { valid := false, message := "Permit is not valid for this gate"
          permit := some p }
      else
        { valid := true, message := "Permit is valid", permit := some p } := by
  simp only [validate_permit, hp]
  rw [if_neg (by simp [hs])]
  rw [if_neg (by simp only [Bool.and_eq_true, decide_eq_true_eq]; exact hexp)]
  rw [if_neg (by simp only [Bool.and_eq_true, decide_eq_true_eq]; exact hstart)]

/-- A permit restricted to gate "A". -/
def gateAPermit : Permit := { basePermit with gate_id := some "A" }

/-- A permit whose stored gate identifier is the empty string — non-null,
but falsy to the Python truthiness test. -/
def emptyGatePermit : Permit := { basePermit with gate_id := some "" }

/-- C10 fails as stated: for a permit whose stored gate identifier is ""
(non-null) and a caller gate "G1" (supplied, different), the claim demands
a denial, but the code short-circuits on Python truthiness — the empty
string is falsy — and reports the permit valid. -/
theorem C10_counterexample :
    emptyGatePermit.gate_id ≠ none ∧
    (some "G1" : Option String) ≠ none ∧
    emptyGatePermit.gate_id ≠ some "G1" ∧
    emptyGatePermit.status = PermitStatus.ACTIVE ∧
    validate_permit (mkDB [emptyGatePermit]) "P1" (some "G1") 5 =
      { valid := true, message := "Permit is valid"
        permit := some emptyGatePermit } := by
  decide

/-- C10 (amended): with "non-null" strengthened to "truthy" (non-None and
non-empty, Python truthiness): the gate denial occurs exactly when both
the supplied and the stored gate identifier are truthy and differ, and if
either is falsy the permit is reported valid for any gate. -/
theorem C10_gate_restriction (db : DB) (pn : String) (gid : Option String)
    (now : Int) (p : Permit)
    (hp : get_permit_by_number db pn = some p)
    (hs : p.status = PermitStatus.ACTIVE)
    (hexp : ¬(pyTruthyDT p.valid_until = true ∧ p.valid_until.getD 0 < now))
    (hstart : ¬(pyTruthyDT p.valid_from = true ∧ p.valid_from.getD 0 > now)) :
    ((validate_permit db pn gid now).message =
        "Permit is not valid for this gate" ↔
      pyTruthyStr gid = true ∧ pyTruthyStr p.gate_id = true ∧
        p.gate_id ≠ gid) ∧
    (pyTruthyStr gid = false ∨ pyTruthyStr p.gate_id = false →
      validate_permit db pn gid now =
        { valid := true, message := "Permit is valid", permit := some p }) := by
  rw [validate_reduces_to_gate_check db pn gid now p hp hs hexp hstart]
  by_cases hc : (pyTruthyStr gid && pyTruthyStr p.gate_id && p.gate_id != gid) = true
  · rw [if_pos hc]
    simp only [Bool.and_eq_true, bne_iff_ne] at hc
    constructor
    · simp only [true_iff]
      exact ⟨hc.1.1, hc.1.2, hc.2⟩
    · intro hd
      rcases hd with hd | hd
      · rw [hc.1.1] at hd
        cases hd
      · rw [hc.1.2] at hd
        cases hd
  · rw [if_neg hc]
    simp only [Bool.and_eq_true, bne_iff_ne] at hc
    constructor
    · constructor
      · intro hmsg
        have hred : ({ valid := true, message := "Permit is valid", permit := some p } : ValidationResult).message = "Permit is valid" := rfl
        rw [hred] at hmsg
        exact absurd hmsg (by decide)
      · intro ⟨h1, h2, h3⟩
        exact absurd ⟨⟨h1, h2⟩, h3⟩ hc
    · intro _
      rfl

/-- Witness for C10: stored gate "A", supplied gate "B" — gate denial. -/
theorem C10_witness :
    (validate_permit (mkDB [gateAPermit]) "P1" (some "B") 5).message =
      "Permit is not valid for this gate" :=
  ((C10_gate_restriction (mkDB [gateAPermit]) "P1" (some "B") 5 gateAPermit
      (by decide) (by decide) (by decide) (by decide)).1).mpr
    (by decide)

/-! ## C5 -/

/-- C5 fails as stated: a creation request carrying a weapon reference
that resolves to nothing (the weapons table is empty) succeeds — the
service signature swallows `weapon_id` in `**kwargs` and never checks the
weapons table. -/
theorem C5_counterexample :
    (mkDB []).weapons = [] ∧
    (create_permit (mkDB []) "TRANSIT" "T1" "U1" none none 30 none
      (some "W9") 0 "X").isOk = true := by
  decide

/-- C5 (amended, weapon references dropped): the duration bound — the
hardcoded [1, 365] days of the router request model, not the configured
hour bounds of core/config.py, which the service never reads — is
enforced by request validation before the service runs; the service
raises `ValueError` and persists nothing when the traveler, issuing user,
gate, or city does not resolve; and the router surfaces a service
`ValueError` directly as HTTP 400, with no retry. -/
theorem C5_validation_errors :
    (∀ db pt tid uid gid cid vd notes now sfx, ¬(1 ≤ vd ∧ vd ≤ 365) →
      create_permit_endpoint db pt tid uid gid cid vd notes now sfx =
        .error (.requestValidation "request body failed validation")) ∧
    (∀ db pt tid uid gid cid vd notes wid now sfx t,
      PermitType.ofValue (pyUpper pt) = some t →
      db.travelers.contains tid = false →
      create_permit db pt tid uid gid cid vd notes wid now sfx =
        .error (.valueError ("Traveler with ID " ++ tid ++ " not found"))) ∧
    (∀ db pt tid uid gid cid vd notes wid now sfx t,
      PermitType.ofValue (pyUpper pt) = some t →
      db.travelers.contains tid = true →
      db.users.contains uid = false →
      create_permit db pt tid uid gid cid vd notes wid now sfx =
        .error (.valueError ("User with ID " ++ uid ++ " not found"))) ∧
    (∀ db pt tid uid g cid vd notes wid now sfx t,
      PermitType.ofValue (pyUpper pt) = some t →
      db.travelers.contains tid = true →
      db.users.contains uid = true →
      db.gates.contains g = false → g ≠ "" →
      create_permit db pt tid uid (some g) cid vd notes wid now sfx =
        .error (.valueError ("Gate with ID " ++ g ++ " not found"))) ∧
    (∀ db pt tid uid c vd notes wid now sfx t,
      PermitType.ofValue (pyUpper pt) = some t →
      db.travelers.contains tid = true →
      db.users.contains uid = true →
      db.cities.contains c = false → c ≠ "" →
      create_permit db pt tid uid none (some c) vd notes wid now sfx =
        .error (.valueError ("City with ID " ++ c ++ " not found"))) ∧
    (∀ db pt tid uid gid cid vd notes now sfx m,
      permitCreateRequestOk vd notes = true →
      create_permit db pt tid uid gid cid vd notes none now sfx =
        .error (.valueError m) →
      create_permit_endpoint db pt tid uid gid cid vd notes now sfx =
        .error (.httpError 400 m)) := by
  refine ⟨?_, ?_, ?_, ?_, ?_, ?_⟩
  · intro db pt tid uid gid cid vd notes now sfx h
    have hok : permitCreateRequestOk vd notes = false := by
      unfold permitCreateRequestOk
      rcases not_and_or.mp h with h1 | h1
      · simp [h1]
      · simp [h1]
    simp [create_permit_endpoint, hok]
  · intro db pt tid uid gid cid vd notes wid now sfx t hparse htrav
    have h1 : tid ∉ db.travelers := by simpa using htrav
    simp [create_permit, hparse, h1]
  · intro db pt tid uid gid cid vd notes wid now sfx t hparse htrav huser
    have h1 : tid ∈ db.travelers := by simpa using htrav
    have h2 : uid ∉ db.users := by simpa using huser
    simp [create_permit, hparse, h1, h2]
  · intro db pt tid uid g cid vd notes wid now sfx t hparse htrav huser
      hgate hne
    have h1 : tid ∈ db.travelers := by simpa using htrav
    have h2 : uid ∈ db.users := by simpa using huser
    have h3 : g ∉ db.gates := by simpa using hgate
    have h4 : g.isEmpty = false := by
      cases hh : g.isEmpty
      · rfl
      · exact absurd ((String.isEmpty_iff g).mp hh) hne
    simp [create_permit, hparse, h1, h2, h3, h4, pyTruthyStr]
  · intro db pt tid uid c vd notes wid now sfx t hparse htrav huser
      hcity hne
    have h1 : tid ∈ db.travelers := by simpa using htrav
    have h2 : uid ∈ db.users := by simpa using huser
    have h3 : c ∉ db.cities := by simpa using hcity
    have h4 : c.isEmpty = false := by
      cases hh : c.isEmpty
      · rfl
      · exact absurd ((String.isEmpty_iff c).mp hh) hne
    simp [create_permit, hparse, h1, h2, h3, h4, pyTruthyStr]
  · intro db pt tid uid gid cid vd notes now sfx m hok hcreate
    simp [create_permit_endpoint, hok, hcreate]

/-- Witness for C5: an out-of-range duration is rejected by request
validation; an unknown traveler fails the service with `ValueError` and
surfaces as HTTP 400 through the endpoint. -/
theorem C5_witness :
    create_permit_endpoint (mkDB []) "TRANSIT" "T1" "U1" none none 400
        none 0 "X" =
      .error (.requestValidation "request body failed validation") ∧
    create_permit (mkDB []) "TRANSIT" "T9" "U1" none none 30 none none 0
        "X" =
      .error (.valueError "Traveler with ID T9 not found") ∧
    create_permit (mkDB []) "TRANSIT" "T1" "U9" none none 30 none none 0
        "X" =
      .error (.valueError "User with ID U9 not found") ∧
    create_permit_endpoint (mkDB []) "TRANSIT" "T9" "U1" none none 30
        none 0 "X" =
      .error (.httpError 400 "Traveler with ID T9 not found") := by
  refine ⟨?_, ?_, ?_, ?_⟩
  · exact C5_validation_errors.1 (mkDB []) "TRANSIT" "T1" "U1" none none
      400 none 0 "X" (by decide)
  · exact C5_validation_errors.2.1 (mkDB []) "TRANSIT" "T9" "U1" none none
      30 none none 0 "X" PermitType.TRANSIT (by decide) (by decide)
  · exact C5_validation_errors.2.2.1 (mkDB []) "TRANSIT" "T1" "U9" none
      none 30 none none 0 "X" PermitType.TRANSIT (by decide) (by decide)
      (by decide)
  · exact C5_validation_errors.2.2.2.2.2 (mkDB []) "TRANSIT" "T9" "U1"
      none none 30 none 0 "X" "Traveler with ID T9 not found" (by decide)
      (by decide)

/-! ## C6 -/

/-- C6 fails as stated: the requested duration is `valid_days` and the
window created for duration 1 is 86400 seconds — one day, not one hour —
so the expiry does not equal the start plus the duration in hours. -/
theorem C6_counterexample :
    (create_permit (mkDB []) "TRANSIT" "T1" "U1" none none 1 none none 0
        "X").toOption.map (fun r => r.2.valid_from) = some (some 0) ∧
    (create_permit (mkDB []) "TRANSIT" "T1" "U1" none none 1 none none 0
        "X").toOption.map (fun r => r.2.valid_until) = some (some 86400) ∧
    (create_permit (mkDB []) "TRANSIT" "T1" "U1" none none 1 none none 0
        "X").toOption.map (fun r => r.2.valid_until) ≠
      some (some ((0 : Int) + 1 * 3600)) := by
  decide

/-- C6 (amended): at creation the validity window is
`valid_until = valid_from + valid_days` DAYS (86400-second days, fields
`valid_from`/`valid_until`, not hour-based fields); it is never
recomputed by status updates (they all fail before writing) or by
validation (read-only), and only `renew_permit` recomputes it. -/
theorem C6_validity_window :
    (∀ db pt tid uid gid cid vd notes wid now sfx db2 p,
      create_permit db pt tid uid gid cid vd notes wid now sfx = .ok (db2, p) →
      p.valid_from = some now ∧ p.valid_until = some (now + vd * 86400)) ∧
    (∀ s, s ∈ (["ACTIVE", "EXITED", "EXPIRED", "FLAGGED", "REVOKED",
        "SUSPENDED"] : List String) →
      ∀ db i u r now, update_permit_status db i s u r now =
        .error (.valueError ("Invalid status: " ++ s))) ∧
    (∀ db pn gid now, (validate_permit_db db pn gid now).2 = db) ∧
    (∀ db i u d now p, find_permit_by_id db i = some p →
      (renew_permit db i u d now).2.map Permit.valid_until =
        some (some ((if p.status = PermitStatus.EXPIRED then now
          else p.valid_until.getD now) + d * 86400))) := by
  refine ⟨?_, ?_, ?_, ?_⟩
  · intro db pt tid uid gid cid vd notes wid now sfx db2 p h
    obtain ⟨-, -, h3, h4, -⟩ := create_permit_ok_shape db pt tid uid gid
      cid vd notes wid now sfx db2 p h
    exact ⟨h3, h4⟩
  · intro s hs db i u r now
    fin_cases hs <;> exact update_status_parse_fail _ (by decide) db i u r now
  · intro db pn gid now
    rfl
  · intro db i u d now p hf
    rw [renew_found_shape db i u d now p hf]
    rfl

/-- Witness for C6: the concrete 30-day creation and the renewal of a
concrete EXPIRED permit at time 50 by 2 days. -/
theorem C6_witness :
    createdPermitW.valid_from = some 0 ∧
    createdPermitW.valid_until = some 2592000 ∧
    (renew_permit (mkDB [expiredTermPermit]) 1 "admin" 2 50).2.map
      Permit.valid_until = some (some 172850) := by
  refine ⟨?_, ?_, ?_⟩
  · exact (C6_validity_window.1 (mkDB []) "TRANSIT" "T1" "U1" none none 30
      none none 0 "X" (mkDB [createdPermitW]) createdPermitW (by decide)).1
  · simpa using (C6_validity_window.1 (mkDB []) "TRANSIT" "T1" "U1" none
      none 30 none none 0 "X" (mkDB [createdPermitW]) createdPermitW
      (by decide)).2
  · simpa [expiredTermPermit, basePermit] using C6_validity_window.2.2.2
      (mkDB [expiredTermPermit]) 1 "admin" 2 50 expiredTermPermit (by decide)

/-! ## C8 — watch-list matcher

The data model (`RiskLevel`, `WantedPerson`, `WantedNameVariant`) is from
src/backend/database/models.py.  The matcher algorithm itself lives in
`modules/wanted/service.py` / `fuzzy_matcher.py`, which are not under
src/ (only their caller, travelers/router.py, is); it is modelled from
spec section 4.3. -/

/-- `RiskLevel` from src/backend/database/models.py (lines 75-79). -/
inductive RiskLevel
  | LOW
  | MEDIUM
  | HIGH
deriving DecidableEq, Repr

/-- `WantedNameVariant` from models.py (lines 314-327): an alternate
spelling with a stored similarity score, owned by a wanted person. -/
structure WantedNameVariant where
  name_variant : String
  similarity_score : ℚ
deriving DecidableEq, Repr

/-- `WantedPerson` from models.py (lines 285-311), with its owned name
variants inlined. -/
structure WantedPerson where
  id : Nat
  full_name : String
  national_id : Option String
  passport_number : Option String
  risk_level : RiskLevel
  name_variants : List WantedNameVariant
deriving DecidableEq, Repr

/-- The verdict returned by the matcher
(`{is_match, matched_person?, risk_level?, confidence}`). -/
structure MatchResult where
  is_match : Bool
  matched_person : Option WantedPerson
  risk_level : Option RiskLevel
  confidence : ℚ
deriving DecidableEq, Repr

/-- Modelled from the spec: exact identity hit of section 4.3 — a wanted
person whose national id or passport number equals the supplied one
(when supplied). -/
def exactHit (national_id passport_number : Option String)
    (w : WantedPerson) : Bool :=
  (national_id.isSome && w.national_id == national_id) ||
    (passport_number.isSome && w.passport_number == passport_number)

/-- Modelled from the spec: the comparison pool of section 4.3 — for each
wanted person, the canonical name scored by the normalized similarity
function directly, and every name variant scored by its stored
`similarity_score` scaled by the similarity of the variant. -/
def fuzzyCandidates (sim : String → String → ℚ) (full_name : String)
    (wanted : List WantedPerson) : List (WantedPerson × ℚ) :=
  (wanted.map (fun w =>
    (w, sim full_name w.full_name) ::
      w.name_variants.map
        (fun v => (w, v.similarity_score * sim full_name v.name_variant)))).flatten

/-- The best-scoring candidate of the pool (ties keep the earlier
element). -/
def bestOf : List (WantedPerson × ℚ) → Option (WantedPerson × ℚ)
  | [] => none
  | c :: rest =>
    match bestOf rest with
    | none => some c
    | some b => if b.2 > c.2 then some b else some c

/-- Modelled from the spec: `MatchWatchList` of sections 4.3 and 6
(the implementation, wanted/service.py and fuzzy_matcher.py, is not under
src/).  An exact hit on national id or passport is an immediate
high-confidence match; otherwise the best-scoring candidate is matched
exactly when its confidence exceeds the threshold, taking the risk level
from the matched person.  The normalized string-similarity function is a
parameter (the spec does not fix it beyond normalization). -/
def matchWatchList (sim : String → String → ℚ) (threshold : ℚ)
    (wanted : List WantedPerson) (full_name : String)
    (national_id passport_number : Option String) : MatchResult :=
  match wanted.find? (exactHit national_id passport_number) with
  | some w =>
    { is_match := true, matched_person := some w
      risk_level := some w.risk_level, confidence := 1 }
  | none =>
    match bestOf (fuzzyCandidates sim full_name wanted) with
    | none =>
      { is_match := false, matched_person := none
        risk_level := none, confidence := 0 }
    | some (w, conf) =>
      if conf > threshold then
        { is_match := true, matched_person := some w
          risk_level := some w.risk_level, confidence := conf }
      else
        { is_match := false, matched_person := none
          risk_level := none, confidence := conf }

/-- The best candidate is one of the candidates. -/
theorem bestOf_mem (l : List (WantedPerson × ℚ)) (c : WantedPerson × ℚ)
    (h : bestOf l = some c) : c ∈ l := by
  induction l with
  | nil => cases h
  | cons a rest ih =>
    cases hb : bestOf rest with
    | none =>
      simp only [bestOf, hb] at h
      cases h
      exact List.mem_cons_self _ _
    | some b =>
      simp only [bestOf, hb] at h
      by_cases hgt : b.2 > a.2
      · rw [if_pos hgt] at h
        cases h
        exact List.mem_cons_of_mem a (ih hb)
      · rw [if_neg hgt] at h
        cases h
        exact List.mem_cons_self _ _

/-- Every candidate is a wanted person of the list scored either on the
canonical name or on one of its variants, scaled by the stored
similarity score. -/
theorem mem_fuzzyCandidates (sim : String → String → ℚ) (name : String)
    (wanted : List WantedPerson) (c : WantedPerson × ℚ)
    (h : c ∈ fuzzyCandidates sim name wanted) :
    ∃ w, w ∈ wanted ∧ c.1 = w ∧
      (c.2 = sim name w.full_name ∨
        ∃ v, v ∈ w.name_variants ∧
          c.2 = v.similarity_score * sim name v.name_variant) := by
  unfold fuzzyCandidates at h
  rw [List.mem_flatten] at h
  obtain ⟨l, hl, hc⟩ := h
  rw [List.mem_map] at hl
  obtain ⟨w, hw, rfl⟩ := hl
  rcases List.mem_cons.mp hc with hc | hc
  · exact ⟨w, hw, by rw [hc], Or.inl (by rw [hc])⟩
  · rw [List.mem_map] at hc
    obtain ⟨v, hv, hveq⟩ := hc
    exact ⟨w, hw, by rw [← hveq], Or.inr ⟨v, hv, by rw [← hveq]⟩⟩

/-- C8: an exact hit on national id or passport is an immediate match with
confidence 1 and the risk level of the hit; otherwise the result carries
the best candidate confidence, which is the stored similarity score of a
variant of a listed person scaled by the computed similarity (or the plain
similarity of the canonical name), the match is declared exactly when that
confidence exceeds the threshold, and the risk level is the matched
person's. -/
theorem C8_watchlist_match :
    (∀ sim threshold wanted name nid pp w,
      List.find? (exactHit nid pp) wanted = some w →
      matchWatchList sim threshold wanted name nid pp =
        { is_match := true, matched_person := some w
          risk_level := some w.risk_level, confidence := 1 }) ∧
    (∀ sim threshold wanted name nid pp w conf,
      List.find? (exactHit nid pp) wanted = none →
      bestOf (fuzzyCandidates sim name wanted) = some (w, conf) →
      (matchWatchList sim threshold wanted name nid pp).confidence = conf ∧
      ((matchWatchList sim threshold wanted name nid pp).is_match = true ↔
        conf > threshold) ∧
      (conf > threshold →
        (matchWatchList sim threshold wanted name nid pp).matched_person =
            some w ∧
          (matchWatchList sim threshold wanted name nid pp).risk_level =
            some w.risk_level) ∧
      w ∈ wanted ∧
      (conf = sim name w.full_name ∨
        ∃ v, v ∈ w.name_variants ∧
          conf = v.similarity_score * sim name v.name_variant)) := by
  constructor
  · intro sim threshold wanted name nid pp w h
    simp [matchWatchList, h]
  · intro sim threshold wanted name nid pp w conf hex hbest
    obtain ⟨w2, hw2, h1, h2⟩ :=
      mem_fuzzyCandidates sim name wanted (w, conf)
        (bestOf_mem _ _ hbest)
    have h1a : w = w2 := h1
    subst h1a
    refine ⟨?_, ?_, ?_, hw2, h2⟩
    · simp only [matchWatchList, hex, hbest]
      by_cases hth : conf > threshold
      · rw [if_pos hth]
      · rw [if_neg hth]
    · simp only [matchWatchList, hex, hbest]
      by_cases hth : conf > threshold
      · simp [hth]
      · simp [hth]
    · intro hth
      simp [matchWatchList, hex, hbest, hth]

/-- A concrete wanted person for evaluating the matcher. -/
def wantedW : WantedPerson := {
  id := 1
  full_name := "Ahmed Alsaleh"
  national_id := some "N1"
  passport_number := none
  risk_level := RiskLevel.HIGH
  name_variants := [{ name_variant := "Ahmad Al-Saleh", similarity_score := 9/10 }] }

/-- A wanted person without stored variants, compared on the canonical
name only. -/
def wantedPlain : WantedPerson := {
  id := 2
  full_name := "Ahmed Alsaleh"
  national_id := none
  passport_number := none
  risk_level := RiskLevel.MEDIUM
  name_variants := [] }

/-- A concrete normalized similarity function used to evaluate the
matcher: 1 on equal strings, 4/5 otherwise. -/
def simW : String → String → ℚ := fun a b => if a == b then 1 else 4/5

/-- Witness for C8: an exact national-id hit on a concrete list, and a
fuzzy comparison of "Ahmad Al-Saleh" against the canonical name
"Ahmed Alsaleh". -/
theorem C8_witness :
    matchWatchList simW (7/10) [wantedW] "Someone" (some "N1") none =
      { is_match := true, matched_person := some wantedW
        risk_level := some wantedW.risk_level, confidence := 1 } ∧
    (matchWatchList simW (7/10) [wantedPlain] "Ahmad Al-Saleh" none
        none).confidence = simW "Ahmad Al-Saleh" "Ahmed Alsaleh" ∧
    ((matchWatchList simW (7/10) [wantedPlain] "Ahmad Al-Saleh" none
        none).is_match = true ↔
      simW "Ahmad Al-Saleh" "Ahmed Alsaleh" > (7/10 : ℚ)) := by
  refine ⟨?_, ?_, ?_⟩
  · exact C8_watchlist_match.1 simW (7/10) [wantedW] "Someone" (some "N1")
      none wantedW rfl
  · exact (C8_watchlist_match.2 simW (7/10) [wantedPlain] "Ahmad Al-Saleh"
      none none wantedPlain (simW "Ahmad Al-Saleh" "Ahmed Alsaleh")
      rfl rfl).1
  · exact (C8_watchlist_match.2 simW (7/10) [wantedPlain] "Ahmad Al-Saleh"
      none none wantedPlain (simW "Ahmad Al-Saleh" "Ahmed Alsaleh")
      rfl rfl).2.1

/-! ## C9 — ScanGate

`GateType` and `MovementAction` are from src/backend/database/models.py;
the Gate-Crossing Validator itself (the movement module) is not under
src/, so `scanGate` is modelled from spec sections 4.1 and 4.2.  The
spec's concurrency requirement (section 5) makes each ScanGate call one
atomic unit per permit, so N simultaneous calls are modelled as an
arbitrary serialization: a list of calls executed sequentially. -/

/-- `GateType` from src/backend/database/models.py (lines 24-27). -/
inductive GateType
  | ENTRY
  | EXIT
deriving DecidableEq, Repr

/-- `MovementAction` from src/backend/database/models.py (lines 66-72). -/
inductive MovementAction
  | ENTRY
  | EXIT
  | EXPIRED
  | ALERT
  | SYNC
deriving DecidableEq, Repr

/-- Modelled from the spec: the permit as the Gate-Crossing Validator
sees it, mirroring the columns of `Permit` in models.py that section 4.2
reads (`permit_code`, `status`, `entry_time`, `expiry_time`, `exit_time`,
exit gate). -/
structure SpecPermit where
  permit_code : String
  status : PermitStatus
  entry_time : Int
  expiry_time : Int
  exit_time : Option Int
  exit_gate : Option String
deriving DecidableEq, Repr

/-- A MovementLog row as appended by the Validator (models.py
lines 422-454, restricted to the fields section 4.2 writes). -/
structure Movement where
  permit_code : String
  action : MovementAction
  gate : String
  timestamp : Int
deriving DecidableEq, Repr

/-- The store the Validator reads and writes: permits and the append-only
movement ledger. -/
structure ScanState where
  permits : List SpecPermit
  logs : List Movement
deriving DecidableEq, Repr

/-- The output `{admitted, resulting_action, reason}` of section 4.2. -/
structure ScanOutcome where
  admitted : Bool
  action : Option MovementAction
  reason : String
deriving DecidableEq, Repr

/-- The closed form of a permit: status EXITED, `exit_time` and the exit
gate recorded. -/
def closedPermit (p : SpecPermit) (exitGate : String) (ts : Int) : SpecPermit :=
  { p with
    status := PermitStatus.EXITED
    exit_time := some ts
    exit_gate := some exitGate }

/-- Modelled from the spec: `close(permit, exitGate, timestamp)` of
section 4.1 — legal only when ACTIVE and `timestamp >= entry_time`;
sets `exit_time` and status EXITED.  `none` stands for
`InvalidTransition`. -/
def specClose (p : SpecPermit) (exitGate : String) (ts : Int) :
    Option SpecPermit :=
  if p.status = PermitStatus.ACTIVE ∧ p.entry_time ≤ ts then
    some (closedPermit p exitGate ts)
  else none

/-- Modelled from the spec: `expire(permit, asOf)` of section 4.1 — legal
when ACTIVE and `asOf > expiry_time`; a no-op on an already-EXPIRED
permit. -/
def specExpire (p : SpecPermit) (asOf : Int) : Option SpecPermit :=
  if p.status = PermitStatus.EXPIRED then some p
  else if p.status = PermitStatus.ACTIVE ∧ asOf > p.expiry_time then
    some { p with status := PermitStatus.EXPIRED }
  else none

/-- Replace the permit stored under `code`. -/
def replacePermit (st : ScanState) (code : String) (p2 : SpecPermit) :
    ScanState :=
  let permits2 := st.permits.map (fun q => if q.permit_code == code then p2 else q)
  { st with permits := permits2 }

/-- Whether the ledger already holds an ENTRY movement for the code
(section 4.2 step 4). -/
def hasEntryMovement (st : ScanState) (code : String) : Bool :=
  st.logs.any (fun m =>
    m.permit_code == code && m.action == MovementAction.ENTRY)

/-- Append one row to the append-only ledger. -/
def appendLog (st : ScanState) (m : Movement) : ScanState :=
  { st with logs := st.logs ++ [m] }

/-- Modelled from the spec: one atomic `ScanGate` call, steps 1-6 of
section 4.2 in order: resolve by code, deny on non-ACTIVE status, deny
and expire past `expiry_time`, deny a duplicate entry, close and log EXIT
at an EXIT gate, log ENTRY at an ENTRY gate. -/
def scanGate (st : ScanState) (code : String) (gate : String)
    (dir : GateType) (ts : Int) : ScanOutcome × ScanState :=
  match st.permits.find? (fun q => q.permit_code == code) with
  | none =>
    ({ admitted := false, action := none, reason := "UNKNOWN_PERMIT" }, st)
  | some p =>
    if p.status ≠ PermitStatus.ACTIVE then
      ({ admitted := false, action := none, reason := p.status.value }, st)
    else if ts > p.expiry_time then
      match specExpire p ts with
      | some p2 =>
        ({ admitted := false, action := none, reason := "EXPIRED" },
         replacePermit st code p2)
      | none =>
        ({ admitted := false, action := none, reason := "EXPIRED" }, st)
    else if dir = GateType.ENTRY ∧ hasEntryMovement st code = true then
      ({ admitted := false, action := none, reason := "DUPLICATE_ENTRY" }, st)
    else
      match dir with
      | GateType.EXIT =>
        match specClose p gate ts with
        | some p2 =>
          ({ admitted := true, action := some MovementAction.EXIT
             reason := "OK" },
           appendLog (replacePermit st code p2)
             { permit_code := code, action := MovementAction.EXIT
               gate := gate, timestamp := ts })
        | none =>
          ({ admitted := false, action := none
             reason := "INVALID_TRANSITION" }, st)
      | GateType.ENTRY =>
        ({ admitted := true, action := some MovementAction.ENTRY
           reason := "OK" },
         appendLog st
           { permit_code := code, action := MovementAction.ENTRY
             gate := gate, timestamp := ts })

/-- One ScanGate request. -/
structure ScanCall where
  code : String
  gate : String
  dir : GateType
  ts : Int
deriving DecidableEq, Repr

/-- A serialization of simultaneous calls: each atomic unit executes in
turn on the state the previous one left. -/
def runScans (st : ScanState) : List ScanCall → List ScanOutcome × ScanState
  | [] => ([], st)
  | c :: rest =>
    let r := scanGate st c.code c.gate c.dir c.ts
    let rr := runScans r.2 rest
    (r.1 :: rr.1, rr.2)

/-- A scan of a permit that is not ACTIVE denies with the status value and
leaves the state unchanged (section 4.2 step 2). -/
theorem scanGate_nonactive (st : ScanState) (code gate : String)
    (dir : GateType) (ts : Int) (p : SpecPermit)
    (h : st.permits.find? (fun q => q.permit_code == code) = some p)
    (hs : p.status ≠ PermitStatus.ACTIVE) :
    scanGate st code gate dir ts =
      ({ admitted := false, action := none, reason := p.status.value }, st) := by
  simp [scanGate, h, hs]

/-- Running any batch of scans of a non-ACTIVE permit denies every one of
them and leaves the state unchanged. -/
theorem runScans_nonactive (code : String) (p : SpecPermit)
    (hs : p.status ≠ PermitStatus.ACTIVE) :
    ∀ (calls : List ScanCall) (st : ScanState),
      st.permits.find? (fun q => q.permit_code == code) = some p →
      (∀ c ∈ calls, c.code = code) →
      runScans st calls =
        (calls.map (fun _ =>
          ({ admitted := false, action := none
             reason := p.status.value } : ScanOutcome)), st) := by
  intro calls
  induction calls with
  | nil =>
    intro st _ _
    rfl
  | cons c rest ih =>
    intro st h hall
    have hc : c.code = code := hall c (List.mem_cons_self _ _)
    have hscan := scanGate_nonactive st code c.gate c.dir c.ts p h hs
    simp only [runScans, hc, hscan, List.map_cons]
    rw [ih st h (fun d hd => hall d (List.mem_cons_of_mem c hd))]

/-- Replacing the permit stored under `code` by `p2` (whose code also
matches) makes lookups resolve to `p2`. -/
theorem find?_map_replace (code : String) (p p2 : SpecPermit)
    (hp2 : (p2.permit_code == code) = true) :
    ∀ l : List SpecPermit,
      l.find? (fun q => q.permit_code == code) = some p →
      (l.map (fun q => if q.permit_code == code then p2 else q)).find?
        (fun q => q.permit_code == code) = some p2 := by
  intro l
  induction l with
  | nil =>
    intro h
    cases h
  | cons a rest ih =>
    intro h
    by_cases ha : (a.permit_code == code) = true
    · simp only [List.map_cons]
      rw [if_pos ha]
      exact List.find?_cons_of_pos _ hp2
    · simp only [List.map_cons]
      rw [if_neg ha]
      rw [List.find?_cons_of_neg (p := fun q : SpecPermit => q.permit_code == code) _ ha] at h
      rw [List.find?_cons_of_neg (p := fun q : SpecPermit => q.permit_code == code) _ ha]
      exact ih h

/-- C9: spec-modelled ScanGate is exactly-once-admitting.  For an ACTIVE
permit and any serialization of simultaneous EXIT-gate calls with its
code (each timestamp within the permit validity window), exactly one call
is admitted; every call produces an outcome, so all the others are
denied. -/
theorem C9_exactly_once_admission (st : ScanState) (code : String)
    (p : SpecPermit) (calls : List ScanCall)
    (hfind : st.permits.find? (fun q => q.permit_code == code) = some p)
    (hact : p.status = PermitStatus.ACTIVE)
    (hne : calls ≠ [])
    (hall : ∀ c ∈ calls, c.code = code ∧ c.dir = GateType.EXIT ∧
      p.entry_time ≤ c.ts ∧ c.ts ≤ p.expiry_time) :
    ((runScans st calls).1.filter (fun o => o.admitted)).length = 1 ∧
    (runScans st calls).1.length = calls.length := by
  cases calls with
  | nil => exact absurd rfl hne
  | cons c rest =>
    obtain ⟨hc1, hc2, hc3, hc4⟩ := hall c (List.mem_cons_self _ _)
    have hclose : specClose p c.gate c.ts = some (closedPermit p c.gate c.ts) := by
      simp [specClose, hact, hc3]
    have hscan : scanGate st c.code c.gate c.dir c.ts =
        ({ admitted := true, action := some MovementAction.EXIT
           reason := "OK" },
         appendLog (replacePermit st c.code (closedPermit p c.gate c.ts))
           { permit_code := c.code, action := MovementAction.EXIT
             gate := c.gate, timestamp := c.ts }) := by
      rw [hc1, hc2]
      simp only [scanGate, hfind]
      rw [if_neg (by simp [hact])]
      rw [if_neg (not_lt.mpr hc4)]
      rw [if_neg (by simp)]
      simp only [hclose]
    have hpcode : (p.permit_code == code) = true :=
      List.find?_some (p := fun q : SpecPermit => q.permit_code == code) hfind
    have hfind2 :
        (appendLog (replacePermit st c.code (closedPermit p c.gate c.ts))
          { permit_code := c.code, action := MovementAction.EXIT
            gate := c.gate, timestamp := c.ts }).permits.find?
          (fun q => q.permit_code == code) =
        some (closedPermit p c.gate c.ts) := by
      rw [hc1]
      exact find?_map_replace code p _ (by simpa [closedPermit] using hpcode)
        st.permits hfind
    have hrest := runScans_nonactive code (closedPermit p c.gate c.ts)
      (by simp [closedPermit]) rest _ hfind2
      (fun d hd => (hall d (List.mem_cons_of_mem c hd)).1)
    have hfil : List.filter (fun o => o.admitted)
        (rest.map (fun _ =>
          ({ admitted := false, action := none
             reason := (closedPermit p c.gate c.ts).status.value } :
            ScanOutcome))) = [] := by
      rw [List.filter_eq_nil_iff]
      intro a ha
      rcases List.mem_map.mp ha with ⟨d, -, rfl⟩
      simp
    simp only [runScans, hscan, hrest]
    constructor
    · simp [List.filter_cons, hfil]
    · simp

/-- A concrete ACTIVE permit for the scan model. -/
def specPermitW : SpecPermit := {
  permit_code := "P1"
  status := PermitStatus.ACTIVE
  entry_time := 0
  expiry_time := 100
  exit_time := none
  exit_gate := none }

/-- The store holding only `specPermitW`, with an empty ledger. -/
def scanStateW : ScanState := { permits := [specPermitW], logs := [] }

/-- One EXIT-gate scan of permit "P1" at time 10. -/
def exitCallW : ScanCall := {
  code := "P1"
  gate := "G1"
  dir := GateType.EXIT
  ts := 10 }

/-- Witness for C9: three simultaneous EXIT scans of the same ACTIVE
permit, serialized — exactly one admission among three outcomes. -/
theorem C9_witness :
    ((runScans scanStateW [exitCallW, exitCallW, exitCallW]).1.filter
      (fun o => o.admitted)).length = 1 ∧
    (runScans scanStateW [exitCallW, exitCallW, exitCallW]).1.length = 3 :=
  C9_exactly_once_admission scanStateW "P1" specPermitW
    [exitCallW, exitCallW, exitCallW] (by decide) (by decide) (by decide)
    (by decide)

end GateFlow
